import Mathlib

/-
Verification of the TCell / TCellOwner core (src/src/tcell.rs).

Shallow embedding:

* A marker type Q is identified by its TypeId, modelled as a Nat.
* The global SINGLETON_CHECK registry (a Mutex<HashSet<TypeId>>) is
  modelled as a Finset Nat of currently registered TypeIds.
* A TCellOwner value carries only its (phantom) marker.
* The memory holding TCell contents is modelled as a heap from cell
  storage addresses (Nat) to stored values (Nat); a reference to a
  TCell is modelled as its storage address.
* Panicking operations return Except String, carrying the exact panic
  message from the source; operations that also mutate global state
  return the post state in a pair, since a Rust panic unwinds after the
  side effects that already happened.
-/

namespace QCell

/-- The panic message of TCellOwner::new, from the assert in the source. -/
def newPanicMsg : String :=
  "Illegal to create two TCellOwner instances with the same marker type parameter"

/-- The panic message of TCellOwner::get_mut2, from the assert in the source. -/
def mut2PanicMsg : String :=
  "Illegal to borrow same TCell twice with get_mut2()"

/-- The panic message of TCellOwner::get_mut3, from the assert in the source. -/
def mut3PanicMsg : String :=
  "Illegal to borrow same TCell twice with get_mut3()"

/-- A TCellOwner<Q> is a zero sized value; its only content is the
phantom marker Q, modelled by the TypeId of Q. -/
structure TCellOwner where
  marker : Nat
deriving DecidableEq

/-- The heap of TCell storage: address to stored value. -/
def Heap : Type := Nat → Nat

/-- TCellOwner::<Q>::new(): HashSet::insert(TypeId::of::<Q>()) inserts
the id and returns true iff it was absent; the assert on that result
panics with the fixed message when it returns false.  The registry
after the call is the inserted set in either case (the insert happened
before the assert fired). -/
def TCellOwner.new (q : Nat) (s : Finset Nat) :
    Except String TCellOwner × Finset Nat :=
  if q ∈ s then (Except.error newPanicMsg, insert q s)
  else (Except.ok ⟨q⟩, insert q s)

/-- Drop for TCellOwner<Q>: SINGLETON_CHECK.remove(&TypeId::of::<Q>()). -/
def TCellOwner.drop (o : TCellOwner) (s : Finset Nat) : Finset Nat :=
  s.erase o.marker

/-- TCellOwner::get: a plain read of the cell contents through the
UnsafeCell; no write, no failure branch. -/
def TCellOwner.get (h : Heap) (a : Nat) : Nat := h a

/-- TCellOwner::get as a state transformer on the heap: the body is a
single load, so the resulting heap is untouched. -/
def TCellOwner.getOp (h : Heap) (a : Nat) : Nat × Heap := (h a, h)

/-- TCellOwner::get_mut: reading the cell contents through the returned
exclusive reference. -/
def TCellOwner.get_mut (h : Heap) (a : Nat) : Nat := h a

/-- Writing a value through the exclusive reference returned by
TCellOwner::get_mut: the heap updated at that single address. -/
def TCell.write (h : Heap) (a v : Nat) : Heap :=
  fun b => if b = a then v else h b

/-- TCellOwner::get_mut2: asserts the two references have distinct
addresses (qc1 as *const _ as usize != qc2 ...), then returns both
contents. -/
def TCellOwner.get_mut2 (h : Heap) (a1 a2 : Nat) :
    Except String (Nat × Nat) :=
  if a1 ≠ a2 then Except.ok (h a1, h a2)
  else Except.error mut2PanicMsg

/-- TCellOwner::get_mut3: asserts the three addresses pairwise distinct
(first-second, second-third, third-first), then returns the three
contents. -/
def TCellOwner.get_mut3 (h : Heap) (a1 a2 a3 : Nat) :
    Except String (Nat × Nat × Nat) :=
  if a1 ≠ a2 ∧ a2 ≠ a3 ∧ a3 ≠ a1 then Except.ok (h a1, h a2, h a3)
  else Except.error mut3PanicMsg

/-- TCell::new(_owner, value): the owner reference is ignored (only its
marker type matters, at compile time); the new cell holds value. -/
def TCell.new (_owner : TCellOwner) (value : Nat) : Nat := value

/-- The tests::tcell scenario: two u32 cells starting at 100 and 200 at
addresses 0 and 1, incremented by 1 and 2 through get_mut (u32
addition, modulo 2^32), then summed through get. -/
def tcellTest : Nat :=
  let h0 : Heap := fun _ => 0
  let h1 := TCell.write h0 0 (TCell.new ⟨0⟩ 100)
  let h2 := TCell.write h1 1 (TCell.new ⟨0⟩ 200)
  let h3 := TCell.write h2 0 ((TCellOwner.get_mut h2 0 + 1) % 4294967296)
  let h4 := TCell.write h3 1 ((TCellOwner.get_mut h3 1 + 2) % 4294967296)
  (TCellOwner.get h4 0 + TCellOwner.get h4 1) % 4294967296

end QCell

namespace QCell

/-- Claim C1 (counterexample): the claim says the abort diagnostic
identifies the offending marker, but the panic message is the same
fixed string for two different markers (TypeIds 0 and 1), so the
diagnostic cannot identify which marker offended. -/
theorem c1_diag_counterexample :
    (TCellOwner.new 0 {0}).1 = Except.error newPanicMsg ∧
    (TCellOwner.new 1 {1}).1 = Except.error newPanicMsg ∧
    (0 : Nat) ≠ 1 := by
  refine ⟨?_, ?_, by decide⟩ <;> rfl

/-- Claim C1 (amended): calling TCellOwner::<M>::new() while another
TCellOwner<M> is live panics instead of returning a token, with the
fixed diagnostic about duplicate marker type parameters (which does not
name the specific marker). -/
theorem c1_new_panics_on_live_duplicate (q : Nat) (s : Finset Nat)
    (hlive : q ∈ s) :
    (TCellOwner.new q s).1 = Except.error newPanicMsg ∧
    ∀ o : TCellOwner, (TCellOwner.new q s).1 ≠ Except.ok o := by
  constructor
  · simp [TCellOwner.new, hlive]
  · intro o
    simp [TCellOwner.new, hlive]

/-- Witness for c1_new_panics_on_live_duplicate at marker 0 with
registry {0}. -/
theorem c1_new_panics_on_live_duplicate_witness :
    (TCellOwner.new 0 {0}).1 = Except.error newPanicMsg ∧
    ∀ o : TCellOwner, (TCellOwner.new 0 {0}).1 ≠ Except.ok o :=
  c1_new_panics_on_live_duplicate 0 {0} (by decide)

/-- Claim C2: get_mut2 panics iff the two references have the same
storage address; distinctness is decided on addresses only, so two
distinct cells holding equal values are accepted and both contents are
returned. -/
theorem c2_get_mut2_aliasing (h : Heap) (a1 a2 : Nat) :
    ((∃ e, TCellOwner.get_mut2 h a1 a2 = Except.error e) ↔ a1 = a2) ∧
    (a1 ≠ a2 → TCellOwner.get_mut2 h a1 a2 = Except.ok (h a1, h a2)) := by
  constructor
  · constructor
    · rintro ⟨e, he⟩
      by_contra hne
      simp [TCellOwner.get_mut2, hne] at he
    · intro heq
      exact ⟨mut2PanicMsg, by simp [TCellOwner.get_mut2, heq]⟩
  · intro hne
    simp [TCellOwner.get_mut2, hne]

/-- Witness for c2_get_mut2_aliasing: a heap where addresses 0 and 1
hold the equal value 5; the call succeeds on the distinct addresses. -/
theorem c2_get_mut2_aliasing_witness :
    ((∃ e, TCellOwner.get_mut2 (fun _ => 5) 0 1 = Except.error e) ↔
      (0 : Nat) = 1) ∧
    ((0 : Nat) ≠ 1 →
      TCellOwner.get_mut2 (fun _ => 5) 0 1 = Except.ok (5, 5)) :=
  c2_get_mut2_aliasing (fun _ => 5) 0 1

/-- Claim C3: get_mut3 panics iff one of the pairs first-second,
second-third, third-first shares a storage address, and returns the
three contents otherwise. -/
theorem c3_get_mut3_aliasing (h : Heap) (a1 a2 a3 : Nat) :
    ((∃ e, TCellOwner.get_mut3 h a1 a2 a3 = Except.error e) ↔
      (a1 = a2 ∨ a2 = a3 ∨ a3 = a1)) ∧
    (a1 ≠ a2 → a2 ≠ a3 → a3 ≠ a1 →
      TCellOwner.get_mut3 h a1 a2 a3 = Except.ok (h a1, h a2, h a3)) := by
  constructor
  · constructor
    · rintro ⟨e, he⟩
      by_contra hne
      push_neg at hne
      simp [TCellOwner.get_mut3, hne.1, hne.2.1, hne.2.2] at he
    · intro heq
      refine ⟨mut3PanicMsg, ?_⟩
      have : ¬ (a1 ≠ a2 ∧ a2 ≠ a3 ∧ a3 ≠ a1) := by tauto
      simp only [TCellOwner.get_mut3, if_neg this]
  · intro h12 h23 h31
    simp [TCellOwner.get_mut3, h12, h23, h31]

/-- Witness for c3_get_mut3_aliasing at addresses 0, 1, 2 on the zero
heap. -/
theorem c3_get_mut3_aliasing_witness :
    ((∃ e, TCellOwner.get_mut3 (fun _ => 0) 0 1 2 = Except.error e) ↔
      ((0 : Nat) = 1 ∨ (1 : Nat) = 2 ∨ (2 : Nat) = 0)) ∧
    ((0 : Nat) ≠ 1 → (1 : Nat) ≠ 2 → (2 : Nat) ≠ 0 →
      TCellOwner.get_mut3 (fun _ => 0) 0 1 2 = Except.ok (0, 0, 0)) :=
  c3_get_mut3_aliasing (fun _ => 0) 0 1 2

/-- Claim C4: dropping the live TCellOwner<M> erases M from the
registry, so a subsequent TCellOwner::<M>::new() succeeds and returns a
new token. -/
theorem c4_new_after_drop (q : Nat) (s : Finset Nat) :
    (TCellOwner.new q (TCellOwner.drop ⟨q⟩ s)).1 = Except.ok ⟨q⟩ := by
  simp [TCellOwner.new, TCellOwner.drop, Finset.not_mem_erase]

/-- Claim C5: a value written through get_mut is observed exactly by a
subsequent get and by a subsequent get_mut on the same cell. -/
theorem c5_write_then_read (h : Heap) (a v : Nat) :
    TCellOwner.get (TCell.write h a v) a = v ∧
    TCellOwner.get_mut (TCell.write h a v) a = v := by
  constructor <;> simp [TCellOwner.get, TCellOwner.get_mut, TCell.write]

/-- Claim C6: get and get_mut have no failure branch (they are total
functions into values), and under pairwise distinct addresses the
panic branches of get_mut2 and get_mut3 are unreachable: both return
Except.ok. -/
theorem c6_no_other_error_paths (h : Heap) (a1 a2 a3 : Nat)
    (h12 : a1 ≠ a2) (h23 : a2 ≠ a3) (h31 : a3 ≠ a1) :
    TCellOwner.get h a1 = h a1 ∧
    TCellOwner.get_mut h a1 = h a1 ∧
    (∃ r, TCellOwner.get_mut2 h a1 a2 = Except.ok r) ∧
    (∃ r, TCellOwner.get_mut3 h a1 a2 a3 = Except.ok r) := by
  refine ⟨rfl, rfl, ⟨(h a1, h a2), ?_⟩, ⟨(h a1, h a2, h a3), ?_⟩⟩
  · simp [TCellOwner.get_mut2, h12]
  · simp [TCellOwner.get_mut3, h12, h23, h31]

/-- Witness for c6_no_other_error_paths at addresses 0, 1, 2 on the
zero heap. -/
theorem c6_no_other_error_paths_witness :
    TCellOwner.get (fun _ => 0) 0 = 0 ∧
    TCellOwner.get_mut (fun _ => 0) 0 = 0 ∧
    (∃ r, TCellOwner.get_mut2 (fun _ => 0) 0 1 = Except.ok r) ∧
    (∃ r, TCellOwner.get_mut3 (fun _ => 0) 0 1 2 = Except.ok r) :=
  c6_no_other_error_paths (fun _ => 0) 0 1 2 (by decide) (by decide)
    (by decide)

/-- Claim C7: a failed TCellOwner::<M>::new() (marker already live)
panics with the registry left exactly as it was: M stays registered,
and since no token value was constructed no destructor runs, so the
existing token can still be dropped later to unregister M. -/
theorem c7_failed_new_changes_no_state (q : Nat) (s : Finset Nat)
    (hlive : q ∈ s) :
    (TCellOwner.new q s).1 = Except.error newPanicMsg ∧
    (TCellOwner.new q s).2 = s ∧
    q ∈ (TCellOwner.new q s).2 ∧
    TCellOwner.drop ⟨q⟩ (TCellOwner.new q s).2 = s.erase q := by
  have hins : insert q s = s := Finset.insert_eq_self.mpr hlive
  refine ⟨by simp [TCellOwner.new, hlive], ?_, ?_, ?_⟩
  · simp [TCellOwner.new, hlive, hins]
  · simp [TCellOwner.new, hlive, hins, hlive]
  · simp [TCellOwner.new, TCellOwner.drop, hlive, hins]

/-- Witness for c7_failed_new_changes_no_state at marker 0 with
registry {0}. -/
theorem c7_failed_new_changes_no_state_witness :
    (TCellOwner.new 0 {0}).1 = Except.error newPanicMsg ∧
    (TCellOwner.new 0 {0}).2 = {0} ∧
    (0 : Nat) ∈ (TCellOwner.new 0 {0}).2 ∧
    TCellOwner.drop ⟨0⟩ (TCellOwner.new 0 {0}).2 =
      ({0} : Finset Nat).erase 0 :=
  c7_failed_new_changes_no_state 0 {0} (by decide)

/-- Claim C8: TCell::new always succeeds; the cell holds exactly the
initial value, so a subsequent get on the cell placed at any address
reads it back; and the result does not depend on the owner reference
passed as evidence, which is not retained. -/
theorem c8_cell_new (o o2 : TCellOwner) (v : Nat) (h : Heap) (a : Nat) :
    TCell.new o v = v ∧
    TCell.new o v = TCell.new o2 v ∧
    TCellOwner.get (TCell.write h a (TCell.new o v)) a = v := by
  refine ⟨rfl, rfl, ?_⟩
  simp [TCellOwner.get, TCell.write, TCell.new]

/-- Claim C9: the tests::tcell scenario: cells 100 and 200, incremented
by 1 and 2 through get_mut, sum through get is 303. -/
theorem c9_scenario_a : tcellTest = 303 := by decide

/-- Claim C10: get is a pure read: as a state transformer it returns
the stored value and leaves every cell (the read one and all others)
unchanged, so a get after another get returns the same value as a get
on the original heap. -/
theorem c10_get_is_pure (h : Heap) (a b : Nat) :
    (TCellOwner.getOp h a).1 = TCellOwner.get h a ∧
    (∀ c, (TCellOwner.getOp h a).2 c = h c) ∧
    (TCellOwner.getOp (TCellOwner.getOp h a).2 b).1 = TCellOwner.get h b ∧
    (TCellOwner.getOp (TCellOwner.getOp h a).2 a).1 =
      (TCellOwner.getOp h a).1 := by
  exact ⟨rfl, fun c => rfl, rfl, rfl⟩

end QCell
